import Mathlib

/-!
Verification of the ACL binding-rule create/update CLI commands.

The repository fragment contains `command/acl/bindingrule/create/bindingrule_create.go`
(the create command, embedded below as `createRun`) and the test file for the update
command.  The update command implementation (`bindingrule_update.go`) and the
identifier-resolution helper it calls are not part of the fragment, so those are
modelled from the specification (each such definition carries a doc comment saying so).
Machine strings are Lean `String`s; the remote Rule Store is an explicit `List Rule`
plus a `submit` capability, and every remote interaction a command performs is
recorded in the `calls` field of its result.
-/

/-- An ACL binding rule record (Go struct `api.ACLBindingRule`), restricted to the
fields this command fragment reads or writes.  `providerName` embeds the Go field
`IDPName`. -/
structure Rule where
  id : String
  providerName : String
  description : String
  roleBindType : String
  roleName : String
  selector : String
deriving Repr, DecidableEq

/-- The fixed role-bind-type enumeration: `api.BindingRuleRoleBindTypeService` and
`api.BindingRuleRoleBindTypeExisting`. -/
def bindTypes : List String := ["service", "existing"]

/-- Outcomes of identifier resolution, from the specification's error catalogue. -/
inductive ResolutionError
  | missingIdentifier
  | notFound
  | ambiguous
deriving Repr, DecidableEq

/-- Go's `strings.HasPrefix`, stated on the underlying character sequences so that
it evaluates by computation. -/
def strStartsWith (s pre : String) : Bool := pre.data.isPrefixOf s.data

/-- Modelled from the spec: the identifier-resolution helper the update command calls
(`GetBindingRuleIDFromPartial`) is not in the fragment.  Per the spec: an empty token
is rejected before any lookup; a token of exactly the canonical identifier length is
treated as a full identifier and resolved by direct fetch only (no fallback to
matching by leading characters); a shorter token is resolved against the set of stored
identifiers that start with it — exactly one match succeeds, zero matches is
`notFound`, two or more is `ambiguous`. -/
def resolve (idLen : Nat) (store : List Rule) (token : String) : Except ResolutionError String :=
  if token = "" then
    .error .missingIdentifier
  else if token.length = idLen then
    match store.find? (fun r => r.id = token) with
    | some r => .ok r.id
    | none => .error .notFound
  else
    match store.filter (fun r => strStartsWith r.id token) with
    | [] => .error .notFound
    | [r] => .ok r.id
    | _ :: _ :: _ => .error .ambiguous

/-- Remote interactions with the Rule Store. -/
inductive RemoteCall
  | list
  | read (id : String)
  | create (rule : Rule)
  | update (id : String) (rule : Rule)
deriving Repr, DecidableEq

/-- What a command invocation produced: process exit code, messages written to the
error stream, the rendered record on success, the record submitted for persistence
(if any), and the remote calls made, in order. -/
structure CmdResult where
  exitCode : Nat
  errors : List String
  output : Option Rule
  submitted : Option Rule
  calls : List RemoteCall
deriving Repr, DecidableEq

def missingIdpNameMsg : String := "Missing required \x27-idp-name\x27 flag"

def missingRoleNameMsg : String := "Missing required \x27-role-name\x27 flag"

def updateMissingIDMsg : String :=
  "Cannot update a binding rule without specifying the -id parameter"

def notFoundMsg (id : String) : String := "Binding rule not found with ID " ++ id

def renderResolutionError : ResolutionError → String
  | .missingIdentifier => "missing identifier"
  | .notFound => "not found"
  | .ambiguous => "more information required to make resolution unambiguous"

def determineErrMsg (e : ResolutionError) : String :=
  "Error determining binding rule ID: " ++ renderResolutionError e

/-- Stand-in for the usage text emitted via `c.UI.Error(c.Help())` (the full
flag-generated usage body is presentation only and elided). -/
def createHelpText : String := "Usage: consul acl binding-rule create [options]"

/-- Flags of the create command (`cmd` struct in `bindingrule_create.go`).  Defaults
from `init`: every string flag defaults to empty except `role-bind-type`, which
defaults to `service`. -/
structure CreateFlags where
  idpName : String
  description : String
  selector : String
  roleBindType : String
  roleName : String
  showMeta : Bool
deriving Repr, DecidableEq

def defaultCreateFlags : CreateFlags :=
  { idpName := "", description := "", selector := "", roleBindType := "service",
    roleName := "", showMeta := false }

/-- The `newRule` literal built in `Run` of `bindingrule_create.go` (lines 100-106):
the ID is left unset and `RoleBindType` is the flag string cast verbatim. -/
def createdRule (f : CreateFlags) : Rule :=
  { id := "", providerName := f.idpName, description := f.description,
    roleBindType := f.roleBindType, roleName := f.roleName, selector := f.selector }

/-- `Run` of `bindingrule_create.go`: reject an empty `-idp-name`, else an empty
`-role-name` (each with the usage text, exit 1, before any remote call), then build
`newRule` and submit it via `BindingRuleCreate`; a remote failure exits 1 with the
wrapped message, success renders the returned rule and exits 0.  `submit` stands for
the API client call (transport failures included in its error case). -/
def createRun (f : CreateFlags) (submit : Rule → Except String Rule) : CmdResult :=
  if f.idpName = "" then
    { exitCode := 1, errors := [missingIdpNameMsg, createHelpText],
      output := none, submitted := none, calls := [] }
  else if f.roleName = "" then
    { exitCode := 1, errors := [missingRoleNameMsg, createHelpText],
      output := none, submitted := none, calls := [] }
  else
    match submit (createdRule f) with
    | .error e =>
      { exitCode := 1, errors := ["Failed to create new binding rule: " ++ e],
        output := none, submitted := some (createdRule f),
        calls := [.create (createdRule f)] }
    | .ok rule =>
      { exitCode := 0, errors := [], output := some rule,
        submitted := some (createdRule f), calls := [.create (createdRule f)] }

/-- Modelled from the spec: flags of the update command (`bindingrule_update.go` is
not in the fragment).  Per the test file the command takes `-id`, `-no-merge`,
`-description`, `-role-bind-type`, `-role-name` and `-selector`.  Per the spec's
design note, only `selector` needs a supplied-versus-omitted wrapper (an explicit
empty selector is a meaningful override); for the other string fields the empty
string means "not supplied". -/
structure UpdateFlags where
  ruleID : String
  noMerge : Bool
  description : String
  roleBindType : String
  roleName : String
  selector : Option String
deriving Repr, DecidableEq

def defaultUpdateFlags : UpdateFlags :=
  { ruleID := "", noMerge := false, description := "", roleBindType := "",
    roleName := "", selector := none }

/-- Modelled from the spec: merge mode of the field merger (update command source is
not in the fragment).  Each editable field keeps the existing record's value unless
an override was supplied; `id` and `providerName` are never touched. -/
def mergeRule (existing : Rule) (f : UpdateFlags) : Rule :=
  { existing with
    description := if f.description = "" then existing.description else f.description,
    roleBindType := if f.roleBindType = "" then existing.roleBindType else f.roleBindType,
    roleName := if f.roleName = "" then existing.roleName else f.roleName,
    selector :=
      match f.selector with
      | some s => s
      | none => existing.selector }

/-- Modelled from the spec: replace mode of the field merger (update command source
is not in the fragment).  The record is rebuilt from the supplied overrides alone;
an unsupplied field reverts to its zero/default value (`service` for the bind type,
matching the create command's flag default, empty for the rest).  `id` is the
resolved identifier and `providerName` is carried over from the existing record,
which is not editable in this flow. -/
def replaceRule (ruleID : String) (existing : Rule) (f : UpdateFlags) : Rule :=
  { id := ruleID, providerName := existing.providerName,
    description := f.description,
    roleBindType := if f.roleBindType = "" then "service" else f.roleBindType,
    roleName := f.roleName,
    selector := f.selector.getD "" }

/-- The record the update command submits: replace mode or merge mode. -/
def buildNewRule (noMerge : Bool) (ruleID : String) (existing : Rule) (f : UpdateFlags) : Rule :=
  if noMerge then replaceRule ruleID existing f else mergeRule existing f

/-- Remote calls the resolver makes: one direct read for a full-length token, one
listing otherwise. -/
def resolveCalls (idLen : Nat) (token : String) : List RemoteCall :=
  if token.length = idLen then [.read token] else [.list]

/-- Modelled from the spec: `Run` of the update command (`bindingrule_update.go` is
not in the fragment).  Pipeline per the spec: reject an empty `-id` before anything
else; in replace mode reject a missing `-role-name` before any remote call; resolve
the identifier (an exact-length miss reports the not-found message seen in the
tests, other resolution failures the determining-ID message); fetch the existing
record; build the new record by merge or replace; submit it.  A remote rejection
exits 1 with the store's message passed through; success renders the stored result
and exits 0. -/
def updateRun (idLen : Nat) (f : UpdateFlags) (store : List Rule)
    (submit : Rule → Except String Rule) : CmdResult :=
  if f.ruleID = "" then
    { exitCode := 1, errors := [updateMissingIDMsg],
      output := none, submitted := none, calls := [] }
  else if f.noMerge = true ∧ f.roleName = "" then
    { exitCode := 1, errors := [missingRoleNameMsg],
      output := none, submitted := none, calls := [] }
  else
    match resolve idLen store f.ruleID with
    | .error e =>
      { exitCode := 1,
        errors := [if f.ruleID.length = idLen then notFoundMsg f.ruleID else determineErrMsg e],
        output := none, submitted := none, calls := resolveCalls idLen f.ruleID }
    | .ok rid =>
      match store.find? (fun r => r.id = rid) with
      | none =>
        { exitCode := 1, errors := [notFoundMsg rid],
          output := none, submitted := none,
          calls := resolveCalls idLen f.ruleID ++ [.read rid] }
      | some current =>
        match submit (buildNewRule f.noMerge rid current f) with
        | .error e =>
          { exitCode := 1, errors := ["Error updating binding rule: " ++ e],
            output := none, submitted := some (buildNewRule f.noMerge rid current f),
            calls := resolveCalls idLen f.ruleID ++
              [.read rid, .update rid (buildNewRule f.noMerge rid current f)] }
        | .ok final =>
          { exitCode := 0, errors := [], output := some final,
            submitted := some (buildNewRule f.noMerge rid current f),
            calls := resolveCalls idLen f.ruleID ++
              [.read rid, .update rid (buildNewRule f.noMerge rid current f)] }

/-! Concrete fixtures used by the witness theorems.  Identifiers are four
characters long, so the canonical identifier length parameter is 4 in the
witnesses (the theorems are uniform in that parameter). -/

def wRule1 : Rule :=
  { id := "aaaa", providerName := "k8s", description := "first rule",
    roleBindType := "service", roleName := "r1", selector := "ns==default" }

def wRule2 : Rule :=
  { id := "abcd", providerName := "k8s", description := "second rule",
    roleBindType := "existing", roleName := "r2", selector := "" }

def wRule3 : Rule :=
  { id := "abce", providerName := "k8s", description := "third rule",
    roleBindType := "service", roleName := "r3", selector := "ns==alt" }

def wStore : List Rule := [wRule1, wRule2, wRule3]

def wCreateFlags : CreateFlags :=
  { idpName := "k8s", description := "demo", selector := "",
    roleBindType := "service", roleName := "web", showMeta := false }

def cexCreateFlags : CreateFlags :=
  { idpName := "k8s", description := "", selector := "",
    roleBindType := "bogus", roleName := "web", showMeta := false }

def wBogusRule : Rule :=
  { id := "", providerName := "k8s", description := "",
    roleBindType := "bogus", roleName := "web", selector := "" }

def wMergeFlags : UpdateFlags :=
  { ruleID := "aaaa", noMerge := false, description := "edited",
    roleBindType := "", roleName := "", selector := none }

/-- C1: for every token shorter than the canonical identifier length, resolution
succeeds iff exactly one stored identifier starts with the token; zero matches
fail with `notFound`, two or more fail with `ambiguous`, and a unique match is
returned exactly (no partial result, no guessed winner). -/
theorem resolve_short_token_prefix_semantics
    (idLen : Nat) (store : List Rule) (token : String)
    (hne : token ≠ "") (hlt : token.length < idLen) :
    ((∃ i, resolve idLen store token = .ok i) ↔
      (store.filter (fun r => strStartsWith r.id token)).length = 1) ∧
    ((store.filter (fun r => strStartsWith r.id token)).length = 0 →
      resolve idLen store token = .error .notFound) ∧
    (2 ≤ (store.filter (fun r => strStartsWith r.id token)).length →
      resolve idLen store token = .error .ambiguous) ∧
    (∀ r, store.filter (fun r => strStartsWith r.id token) = [r] →
      resolve idLen store token = .ok r.id) := by
  have hlen : ¬ token.length = idLen := Nat.ne_of_lt hlt
  unfold resolve
  rw [if_neg hne, if_neg hlen]
  rcases hf : store.filter (fun r => strStartsWith r.id token) with _ | ⟨a, _ | ⟨b, l⟩⟩ <;>
    rw [hf] <;> simp

/-- Witness for C1 at a concrete store: the two-character token matches exactly
one stored identifier and resolves to it. -/
theorem resolve_short_token_prefix_semantics_witness :
    resolve 4 wStore "aa" = .ok "aaaa" :=
  (resolve_short_token_prefix_semantics 4 wStore "aa" (by decide) (by decide)).2.2.2
    wRule1 (by decide)

/-- C2: for every token of exactly the canonical identifier length, resolution is
a direct fetch only — the record with that exact id when it exists, otherwise
`notFound`, with no fallback to matching by leading characters. -/
theorem resolve_exact_length_direct_fetch
    (idLen : Nat) (store : List Rule) (token : String)
    (hne : token ≠ "") (hlen : token.length = idLen) :
    ((∃ r ∈ store, r.id = token) → resolve idLen store token = .ok token) ∧
    ((∀ r ∈ store, r.id ≠ token) → resolve idLen store token = .error .notFound) := by
  constructor
  · rintro ⟨r, hmem, hid⟩
    unfold resolve
    rw [if_neg hne, if_pos hlen]
    cases hfind : store.find? (fun r => r.id = token) with
    | some a =>
        have ha := List.find?_some hfind
        simp only [decide_eq_true_eq] at ha
        simp [ha]
    | none =>
        rw [List.find?_eq_none] at hfind
        have := hfind r hmem
        simp [hid] at this
  · intro hall
    unfold resolve
    rw [if_neg hne, if_pos hlen]
    cases hfind : store.find? (fun r => r.id = token) with
    | some a =>
        have h1 := List.find?_some hfind
        have h2 := List.mem_of_find?_eq_some hfind
        simp only [decide_eq_true_eq] at h1
        exact absurd h1 (hall a h2)
    | none => rfl

/-- Witness for C2 at a concrete store with the canonical length set to 2: the
token is a strict prefix of two stored identifiers, yet at exact length the
resolver reports `notFound` rather than falling back to prefix matching. -/
theorem resolve_exact_length_direct_fetch_witness :
    resolve 2 wStore "ab" = .error .notFound :=
  (resolve_exact_length_direct_fetch 2 wStore "ab" (by decide) (by decide)).2
    (by decide)

/-- C3: in merge mode, every editable field without a supplied override keeps the
existing record's value, and merging with no overrides at all returns the existing
record unchanged. -/
theorem merge_retains_unsupplied_fields (existing : Rule) (f : UpdateFlags) :
    (f.description = "" → (mergeRule existing f).description = existing.description) ∧
    (f.roleBindType = "" → (mergeRule existing f).roleBindType = existing.roleBindType) ∧
    (f.roleName = "" → (mergeRule existing f).roleName = existing.roleName) ∧
    (f.selector = none → (mergeRule existing f).selector = existing.selector) ∧
    (f.description = "" → f.roleBindType = "" → f.roleName = "" → f.selector = none →
      mergeRule existing f = existing) := by
  refine ⟨fun h => by simp [mergeRule, h], fun h => by simp [mergeRule, h],
    fun h => by simp [mergeRule, h], fun h => by simp [mergeRule, h], ?_⟩
  intro h1 h2 h3 h4
  simp [mergeRule, h1, h2, h3, h4]

/-- Witness for C3: merging a concrete record with the all-empty override set is
the identity. -/
theorem merge_retains_unsupplied_fields_witness :
    mergeRule wRule1 defaultUpdateFlags = wRule1 :=
  (merge_retains_unsupplied_fields wRule1 defaultUpdateFlags).2.2.2.2 rfl rfl rfl rfl

/-- C4: in replace mode the result is built from the overrides alone — it does not
depend on the existing record's editable fields, and every unsupplied field takes
its zero/default value (`service` for the bind type, empty otherwise) rather than
the existing record's value. -/
theorem replace_uses_only_overrides
    (rid : String) (c c2 : Rule) (f : UpdateFlags)
    (hp : c.providerName = c2.providerName) :
    replaceRule rid c f = replaceRule rid c2 f ∧
    (f.description = "" → (replaceRule rid c f).description = "") ∧
    (f.roleBindType = "" → (replaceRule rid c f).roleBindType = "service") ∧
    (f.selector = none → (replaceRule rid c f).selector = "") ∧
    (replaceRule rid c f).roleName = f.roleName := by
  refine ⟨by simp [replaceRule, hp], fun h => by simp [replaceRule, h],
    fun h => by simp [replaceRule, h], fun h => by simp [replaceRule, h], rfl⟩

/-- Witness for C4: with no bind-type override, replace mode resets the bind type
of a record whose stored bind type is `existing` back to the default `service`,
and the result is the same whichever existing record (of the same provider) it is
applied to. -/
theorem replace_uses_only_overrides_witness :
    replaceRule "abcd" wRule2 defaultUpdateFlags =
      replaceRule "abcd" wRule3 defaultUpdateFlags ∧
    (replaceRule "abcd" wRule2 defaultUpdateFlags).roleBindType = "service" :=
  ⟨(replace_uses_only_overrides "abcd" wRule2 wRule3 defaultUpdateFlags rfl).1,
    (replace_uses_only_overrides "abcd" wRule2 wRule3 defaultUpdateFlags rfl).2.2.1 rfl⟩

/-- C5: in replace mode an invocation without `-role-name` exits 1 with the
missing-flag message and makes no remote call; in merge mode omitting `-role-name`
goes through and the prior role name is retained. -/
theorem replace_requires_role_name
    (idLen : Nat) (f : UpdateFlags) (store : List Rule)
    (submit : Rule → Except String Rule) (hid : f.ruleID ≠ "") :
    (f.noMerge = true → f.roleName = "" →
      updateRun idLen f store submit =
        { exitCode := 1, errors := [missingRoleNameMsg],
          output := none, submitted := none, calls := [] }) ∧
    (f.noMerge = false → f.roleName = "" →
      ∀ rid current final,
        resolve idLen store f.ruleID = .ok rid →
        store.find? (fun r => r.id = rid) = some current →
        submit (mergeRule current f) = .ok final →
        updateRun idLen f store submit =
          { exitCode := 0, errors := [], output := some final,
            submitted := some (mergeRule current f),
            calls := resolveCalls idLen f.ruleID ++
              [.read rid, .update rid (mergeRule current f)] } ∧
        (mergeRule current f).roleName = current.roleName) := by
  constructor
  · intro hnm hrn
    unfold updateRun
    rw [if_neg hid, if_pos ⟨hnm, hrn⟩]
  · intro hnm hrn rid current final hres hfind hsub
    have hguard : ¬ (f.noMerge = true ∧ f.roleName = "") := by simp [hnm]
    have hbuild : buildNewRule f.noMerge rid current f = mergeRule current f := by
      simp [buildNewRule, hnm]
    constructor
    · unfold updateRun
      rw [if_neg hid, if_neg hguard]
      simp only [hres, hfind, hbuild, hsub]
    · simp [mergeRule, hrn]

/-- Witness for C5: with a valid id but no role name, replace mode at a concrete
store fails with the missing-flag message and an empty call list. -/
theorem replace_requires_role_name_witness :
    updateRun 4 { defaultUpdateFlags with ruleID := "aaaa", noMerge := true }
        wStore Except.ok =
      { exitCode := 1, errors := [missingRoleNameMsg],
        output := none, submitted := none, calls := [] } :=
  (replace_requires_role_name 4
      { defaultUpdateFlags with ruleID := "aaaa", noMerge := true }
      wStore Except.ok (by decide)).1 rfl rfl

/-- C6: in merge mode an explicitly supplied empty selector clears the field,
while omitting the selector flag preserves the existing value; when the existing
selector is non-empty the two results differ. -/
theorem merge_selector_empty_vs_omitted (existing : Rule) (f : UpdateFlags) :
    (mergeRule existing { f with selector := some "" }).selector = "" ∧
    (mergeRule existing { f with selector := none }).selector = existing.selector ∧
    (existing.selector ≠ "" →
      mergeRule existing { f with selector := some "" } ≠
        mergeRule existing { f with selector := none }) := by
  refine ⟨rfl, rfl, fun h hEq => h ?_⟩
  exact (congrArg Rule.selector hEq).symm

/-- Witness for C6: on a concrete record with a non-empty selector, the explicit
empty override and the omitted flag give different merge results. -/
theorem merge_selector_empty_vs_omitted_witness :
    mergeRule wRule1 { defaultUpdateFlags with selector := some "" } ≠
      mergeRule wRule1 { defaultUpdateFlags with selector := none } :=
  (merge_selector_empty_vs_omitted wRule1 defaultUpdateFlags).2.2 (by decide)

/-- Every record the update command submits is the merge or replace build for the
record the pipeline fetched, and the replace-mode role-name guard was passed. -/
lemma updateRun_submitted_build
    (idLen : Nat) (f : UpdateFlags) (store : List Rule)
    (submit : Rule → Except String Rule) (r current : Rule) (rid : String)
    (hres : resolve idLen store f.ruleID = .ok rid)
    (hfind : store.find? (fun x => x.id = rid) = some current)
    (hsub : (updateRun idLen f store submit).submitted = some r) :
    r = buildNewRule f.noMerge rid current f ∧
    ¬ (f.noMerge = true ∧ f.roleName = "") := by
  have hne : f.ruleID ≠ "" := by
    intro h
    rw [h] at hres
    simp [resolve] at hres
  unfold updateRun at hsub
  rw [if_neg hne] at hsub
  by_cases hguard : f.noMerge = true ∧ f.roleName = ""
  · rw [if_pos hguard] at hsub
    simp at hsub
  · rw [if_neg hguard] at hsub
    simp only [hres, hfind] at hsub
    refine ⟨?_, hguard⟩
    cases hs : submit (buildNewRule f.noMerge rid current f) <;>
      rw [hs] at hsub <;> simpa using hsub.symm

/-- C9: in both merge and replace mode, a record submitted by the update command
keeps the fetched record's id and provider name unchanged. -/
theorem update_preserves_id_and_provider
    (idLen : Nat) (f : UpdateFlags) (store : List Rule)
    (submit : Rule → Except String Rule) (r current : Rule) (rid : String)
    (hres : resolve idLen store f.ruleID = .ok rid)
    (hfind : store.find? (fun x => x.id = rid) = some current)
    (hsub : (updateRun idLen f store submit).submitted = some r) :
    r.id = current.id ∧ r.providerName = current.providerName := by
  have hcid : current.id = rid := by
    have := List.find?_some hfind
    simpa using this
  obtain ⟨hr, -⟩ := updateRun_submitted_build idLen f store submit r current rid
    hres hfind hsub
  subst hr
  cases hnm : f.noMerge with
  | false => simp [buildNewRule, mergeRule]
  | true => simp [buildNewRule, replaceRule, hcid]

/-- Witness for C9 at a concrete store: the record submitted by a merge-mode
update has the fetched record's id and provider name. -/
theorem update_preserves_id_and_provider_witness :
    (mergeRule wRule1 wMergeFlags).id = wRule1.id ∧
    (mergeRule wRule1 wMergeFlags).providerName = wRule1.providerName :=
  update_preserves_id_and_provider 4 wMergeFlags wStore Except.ok
    (mergeRule wRule1 wMergeFlags) wRule1 "aaaa" rfl rfl rfl

/-- C8 counterexample: the create command performs no local validation of the
role-bind-type string — with `-role-bind-type=bogus` it submits a record whose
bind type is outside the fixed enumeration. -/
theorem submit_bind_type_unvalidated_cex :
    (createRun cexCreateFlags Except.ok).submitted = some wBogusRule ∧
    wBogusRule.roleBindType ∉ bindTypes := by decide

/-- C8 amended: every record the commands submit has a non-empty role name; the
bind type is the supplied flag string passed through verbatim (so it lies in the
fixed enumeration whenever the supplied value does, and in merge/replace mode
whenever the supplied or prior value does), but membership in the enumeration is
not enforced locally. -/
theorem submitted_rule_role_name_nonempty
    (cf : CreateFlags) (csub : Rule → Except String Rule)
    (idLen : Nat) (uf : UpdateFlags) (store : List Rule)
    (usub : Rule → Except String Rule) :
    (∀ r, (createRun cf csub).submitted = some r →
      r.roleName ≠ "" ∧ r.roleBindType = cf.roleBindType ∧
      (cf.roleBindType ∈ bindTypes → r.roleBindType ∈ bindTypes)) ∧
    (∀ r rid current,
      resolve idLen store uf.ruleID = .ok rid →
      store.find? (fun x => x.id = rid) = some current →
      current.roleName ≠ "" → current.roleBindType ∈ bindTypes →
      (uf.roleBindType = "" ∨ uf.roleBindType ∈ bindTypes) →
      (updateRun idLen uf store usub).submitted = some r →
      r.roleName ≠ "" ∧ r.roleBindType ∈ bindTypes) := by
  constructor
  · intro r hsub
    unfold createRun at hsub
    by_cases h1 : cf.idpName = ""
    · rw [if_pos h1] at hsub
      simp at hsub
    · rw [if_neg h1] at hsub
      by_cases h2 : cf.roleName = ""
      · rw [if_pos h2] at hsub
        simp at hsub
      · rw [if_neg h2] at hsub
        have hr : r = createdRule cf := by
          cases hs : csub (createdRule cf) <;> rw [hs] at hsub <;>
            simpa using hsub.symm
        subst hr
        exact ⟨by simpa [createdRule] using h2, rfl, fun h => h⟩
  · intro r rid current hres hfind hcrn hcbt hubt hsub
    obtain ⟨hr, hguard⟩ := updateRun_submitted_build idLen uf store usub r current rid
      hres hfind hsub
    subst hr
    cases hnm : uf.noMerge with
    | false =>
        constructor
        · by_cases hrn : uf.roleName = "" <;>
            simp [buildNewRule, mergeRule, hrn, hcrn]
        · by_cases hbt : uf.roleBindType = ""
          · simpa [buildNewRule, mergeRule, hbt] using hcbt
          · rcases hubt with h | h
            · exact absurd h hbt
            · simpa [buildNewRule, mergeRule, hbt] using h
    | true =>
        have hrn : uf.roleName ≠ "" := fun h => hguard ⟨hnm, h⟩
        constructor
        · simpa [buildNewRule, replaceRule] using hrn
        · by_cases hbt : uf.roleBindType = ""
          · simp [buildNewRule, replaceRule, hbt, bindTypes]
          · rcases hubt with h | h
            · exact absurd h hbt
            · simpa [buildNewRule, replaceRule, hbt] using h

/-- Witness for C8 amended: a concrete create invocation with a valid bind type
submits a record with a non-empty role name and an in-enumeration bind type. -/
theorem submitted_rule_role_name_nonempty_witness :
    (createdRule wCreateFlags).roleName ≠ "" ∧
    (createdRule wCreateFlags).roleBindType = wCreateFlags.roleBindType ∧
    (wCreateFlags.roleBindType ∈ bindTypes →
      (createdRule wCreateFlags).roleBindType ∈ bindTypes) :=
  (submitted_rule_role_name_nonempty wCreateFlags Except.ok 4
      defaultUpdateFlags wStore Except.ok).1
    (createdRule wCreateFlags) (by decide)

/-- C7: each missing required input (empty `-id` for update, empty `-idp-name` or
`-role-name` for create) exits 1 with its specific message before any remote call
(the call list is empty), and a successful invocation renders the resulting record
and exits 0. -/
theorem commands_required_inputs_and_exit_codes
    (cf : CreateFlags) (csub : Rule → Except String Rule)
    (idLen : Nat) (uf : UpdateFlags) (store : List Rule)
    (usub : Rule → Except String Rule) :
    (cf.idpName = "" → createRun cf csub =
      { exitCode := 1, errors := [missingIdpNameMsg, createHelpText],
        output := none, submitted := none, calls := [] }) ∧
    (cf.idpName ≠ "" → cf.roleName = "" → createRun cf csub =
      { exitCode := 1, errors := [missingRoleNameMsg, createHelpText],
        output := none, submitted := none, calls := [] }) ∧
    (uf.ruleID = "" → updateRun idLen uf store usub =
      { exitCode := 1, errors := [updateMissingIDMsg],
        output := none, submitted := none, calls := [] }) ∧
    (∀ rule, cf.idpName ≠ "" → cf.roleName ≠ "" →
      csub (createdRule cf) = .ok rule →
      createRun cf csub =
        { exitCode := 0, errors := [], output := some rule,
          submitted := some (createdRule cf),
          calls := [.create (createdRule cf)] }) ∧
    (∀ rid current final, uf.ruleID ≠ "" →
      ¬ (uf.noMerge = true ∧ uf.roleName = "") →
      resolve idLen store uf.ruleID = .ok rid →
      store.find? (fun x => x.id = rid) = some current →
      usub (buildNewRule uf.noMerge rid current uf) = .ok final →
      updateRun idLen uf store usub =
        { exitCode := 0, errors := [], output := some final,
          submitted := some (buildNewRule uf.noMerge rid current uf),
          calls := resolveCalls idLen uf.ruleID ++
            [.read rid, .update rid (buildNewRule uf.noMerge rid current uf)] }) := by
  refine ⟨?_, ?_, ?_, ?_, ?_⟩
  · intro h
    unfold createRun
    rw [if_pos h]
  · intro h1 h2
    unfold createRun
    rw [if_neg h1, if_pos h2]
  · intro h
    unfold updateRun
    rw [if_pos h]
  · intro rule h1 h2 hs
    unfold createRun
    rw [if_neg h1, if_neg h2]
    simp only [hs]
  · intro rid current final h1 h2 hres hfind hs
    unfold updateRun
    rw [if_neg h1, if_neg h2]
    simp only [hres, hfind, hs]

/-- Witness for C7: a fully specified create invocation against an accepting store
exits 0, renders the stored record, and made exactly the one create call. -/
theorem commands_required_inputs_and_exit_codes_witness :
    createRun wCreateFlags Except.ok =
      { exitCode := 0, errors := [],
        output := some (createdRule wCreateFlags),
        submitted := some (createdRule wCreateFlags),
        calls := [.create (createdRule wCreateFlags)] } :=
  (commands_required_inputs_and_exit_codes wCreateFlags Except.ok 4
      defaultUpdateFlags wStore Except.ok).2.2.2.1
    (createdRule wCreateFlags) (by decide) (by decide) rfl

/-- C10: the create command's required-flag checks form an else-if chain with
`-idp-name` first — when it is empty only the idp-name message is emitted, and the
role-name message can only appear when `-idp-name` was non-empty. -/
theorem create_missing_flags_order
    (f : CreateFlags) (submit : Rule → Except String Rule) :
    (f.idpName = "" → createRun f submit =
      { exitCode := 1, errors := [missingIdpNameMsg, createHelpText],
        output := none, submitted := none, calls := [] }) ∧
    (missingRoleNameMsg ∈ (createRun f submit).errors → f.idpName ≠ "") := by
  constructor
  · intro h
    unfold createRun
    rw [if_pos h]
  · intro hmem h
    unfold createRun at hmem
    rw [if_pos h] at hmem
    simp only [List.mem_cons, List.not_mem_nil, or_false] at hmem
    rcases hmem with h1 | h2
    · exact absurd h1 (by decide)
    · exact absurd h2 (by decide)

/-- Witness for C10: with both required flags empty, only the idp-name message is
emitted. -/
theorem create_missing_flags_order_witness :
    createRun defaultCreateFlags Except.ok =
      { exitCode := 1, errors := [missingIdpNameMsg, createHelpText],
        output := none, submitted := none, calls := [] } :=
  (create_missing_flags_order defaultCreateFlags Except.ok).1 rfl
